import Mathlib

/-!
Verification of the ranking engine `_recommend` of `src/main.py`
(repository till90/xliver-da), shallowly embedded in Lean 4.

Modelling conventions:
* Machine floats of the source carry only sums of the literal rule weights
  (all multiples of 1/2), which floats represent exactly; scores are `Rat`.
* A possibly-absent / possibly-malformed JSON numeric field is a `NumField`:
  `missing` stands for an absent or falsy value (`None`, `0`, `""`, `[]`),
  `num n` for a truthy value that Python `int()` converts to `n` (this
  includes numeric strings such as `"0"`), and `bad` for a truthy value on
  which `int()` raises.  `int(x or d)` is `pyInt`, which propagates the
  raise as `Except.error`; the cost field is read inside `try/except` in
  the source, hence `pyIntCost` is total.
* `kids_selected` is compared with `is True` in the source, so it is kept
  as a dynamic `PyVal`; all other query fields reach the engine as typed
  optional values (`answers.get(...)`).
* Python `list.sort(key=..., reverse=True)` is a stable descending sort;
  it is modelled by the (extensionally equal, uniquely determined)
  stable insertion sort `sortDesc`.
-/

namespace Xliver

/-- Decidable equality on `Except`, for evaluating the engine on concrete
inputs. -/
instance {ε α : Type} [DecidableEq ε] [DecidableEq α] : DecidableEq (Except ε α) := fun x y =>
  match x, y with
  | .error a, .error b =>
    if h : a = b then isTrue (by rw [h])
    else isFalse (fun hc => h (by injection hc))
  | .error _, .ok _ => isFalse (fun hc => by injection hc)
  | .ok _, .error _ => isFalse (fun hc => by injection hc)
  | .ok a, .ok b =>
    if h : a = b then isTrue (by rw [h])
    else isFalse (fun hc => h (by injection hc))

/-- A dynamic Python value, as far as the kids guard needs it. -/
inductive PyVal where
  | vNone : PyVal
  | vBool : Bool → PyVal
  | vInt : Int → PyVal
  | vStr : String → PyVal
deriving DecidableEq

/-- Python truthiness of a `PyVal`. -/
def pyTruthy : PyVal → Bool
  | .vNone => false
  | .vBool b => b
  | .vInt n => n != 0
  | .vStr s => s != ""

/-- A JSON numeric field as the tolerant reader of `main.py` sees it:
absent-or-falsy, a truthy value `int()` maps to `n`, or a truthy value on
which `int()` raises. -/
inductive NumField where
  | missing : NumField
  | num : Int → NumField
  | bad : NumField
deriving DecidableEq

/-- `int(f or d)`: falsy values take the default, truthy numerics convert,
truthy non-numerics raise (modelled as `Except.error`). -/
def pyInt (f : NumField) (d : Int) : Except Unit Int :=
  match f with
  | .missing => .ok d
  | .num n => .ok n
  | .bad => .error ()

/-- `cost.get("max_eur_pp", 0)` followed by `try: int(x or 0) except: 0`
(lines 194-198 of `main.py`): never raises. -/
def pyIntCost (f : NumField) : Int :=
  match f with
  | .missing => 0
  | .num n => n
  | .bad => 0

/-- The `duration` / `travel_from` sub-dictionaries of an item. -/
structure Interval where
  min_minutes : NumField := .missing
  max_minutes : NumField := .missing
deriving DecidableEq

/-- The `cost` sub-dictionary of an item. -/
structure Cost where
  ctype : Option String := none
  max_eur_pp : NumField := .missing
deriving DecidableEq

/-- One catalog entry, restricted to the fields the engine reads. -/
structure Item where
  slug : String := ""
  tags : List String := []
  duration : Interval := {}
  travel_from : Interval := {}
  cost : Cost := {}
deriving DecidableEq

/-- `_has_any_tag` of `main.py` (lines 109-111). -/
def _has_any_tag (it : Item) (tags : List String) : Bool :=
  tags.any (fun t => it.tags.contains t)

/-- `_overlap` of `main.py` (lines 105-106). -/
def _overlap (a_min a_max b_min b_max : Int) : Bool :=
  ! (decide (a_max < b_min) || decide (a_min > b_max))

/-- The raw answers payload, already past the typed boundary (the
collaborator parses request JSON; `kids_selected` stays dynamic because
the engine compares it with `is True`). -/
structure Answers where
  time_min_minutes : Option Int := none
  time_max_minutes : Option Int := none
  max_travel_minutes : Option Int := none
  modes : List String := []
  kid_age_group : Option String := none
  kids_selected : PyVal := .vNone
  vibe : Option String := none
  setting : Option String := none
  max_eur_pp : Option Int := none
deriving DecidableEq

/-- `int(answers.get(k) or d)` for an optional int field: absent or zero
falls back to the default. -/
def orDefault (v : Option Int) (d : Int) : Int :=
  match v with
  | none => d
  | some n => if n = 0 then d else n

/-- The defaulted query parameters extracted in lines 124-144 of
`main.py`. -/
structure QueryParams where
  time_min : Int
  time_max : Int
  max_travel : Int
  modes : List String
  kid_age_group : Option String
  kids_selected : PyVal
  vibe : Option String
  setting : Option String
  budget_max : Option Int
deriving DecidableEq

/-- Lines 124-144 of `main.py`: defaults `0`, `24*60`, `999`. -/
def extractQuery (a : Answers) : QueryParams where
  time_min := orDefault a.time_min_minutes 0
  time_max := orDefault a.time_max_minutes (24 * 60)
  max_travel := orDefault a.max_travel_minutes 999
  modes := a.modes
  kid_age_group := a.kid_age_group
  kids_selected := a.kids_selected
  vibe := a.vibe
  setting := a.setting
  budget_max := a.max_eur_pp

/-- The guard `if time_min or time_max:` (line 157). -/
def timeActive (time_min time_max : Int) : Bool :=
  time_min != 0 || time_max != 0

/-- Lines 157-166: the duration-overlap hard filter and its score
(`none` = the item is dropped). -/
def timeStep (time_min time_max it_min it_max : Int) : Option (Rat × List String) :=
  if timeActive time_min time_max then
    if ! _overlap it_min it_max time_min time_max then none
    else if decide (it_min ≥ time_min) && decide (it_max ≤ time_max) then
      some (22, ["Zeit passt sehr gut."])
    else some (12, ["Zeit passt grundsätzlich."])
  else some (0, [])

/-- Lines 174-181: the travel-time hard filter and score.  The final
branch mirrors the source's missing `else`; `travelStep_cases` below shows
it is unreachable. -/
def travelStep (max_travel it_tr_min : Int) : Option (Rat × List String) :=
  if decide (it_tr_min > max_travel) then none
  else if decide (it_tr_min ≤ 15) && decide (max_travel ≤ 30) then
    some (12, ["Sehr nah dran."])
  else if decide (it_tr_min ≤ max_travel) then some (8, [])
  else some (0, [])

/-- Lines 185-189: the setting hard filter. -/
def settingStep (setting : Option String) (it : Item) : Option (Rat × List String) :=
  match setting with
  | none => some (0, [])
  | some s =>
    if s != "" && s != "any" then
      if ! _has_any_tag it [s] then none
      else some (10, ["Setting passt (drinnen/draußen)."])
    else some (0, [])

/-- Lines 192-212: the budget semi-hard filter. -/
def budgetStep (budget_max : Option Int) (cost : Cost) : Option (Rat × List String) :=
  match budget_max with
  | none => some (0, [])
  | some budget =>
    let it_max_eur := pyIntCost cost.max_eur_pp
    if decide (it_max_eur > 0) && decide (it_max_eur > budget) then none
    else if decide (it_max_eur = 0) && (cost.ctype == some "free") then
      some (10, ["Kostenlos."])
    else if decide (it_max_eur = 0) then some (4, [])
    else some (6, ["Budget passt."])

/-- `kid_age_group and kid_age_group != "mixed"` (line 215). -/
def kagActive (kag : Option String) : Bool :=
  match kag with
  | none => false
  | some s => s != "" && s != "mixed"

/-- `kids_selected is True or (kid_age_group and kid_age_group != "mixed")`
(line 215); `is True` is an identity test against the `True` singleton. -/
def kidsActive (ks : PyVal) (kag : Option String) : Bool :=
  (ks == PyVal.vBool true) || kagActive kag

/-- Lines 215-220: the kids hard filter. -/
def kidsStep (ks : PyVal) (kag : Option String) (it : Item) : Option (Rat × List String) :=
  if kidsActive ks kag then
    if ! _has_any_tag it ["kids-ok"] then none
    else some (10, ["Familientauglich."])
  else some (0, [])

/-- Lines 224-238: vibe scoring (soft, never filters). -/
def vibeStep (vibe : Option String) (it : Item) : Rat × List String :=
  match vibe with
  | none => (0, [])
  | some v =>
    if v == "" then (0, [])
    else if v == "calm" then
      if _has_any_tag it ["calm"] then (14, ["Ruhiger Vibe passt."]) else (4, [])
    else if v == "easy" then
      if _has_any_tag it ["calm", "active"] then (10, []) else (4, [])
    else if v == "sporty" then
      if _has_any_tag it ["active"] then (14, ["Aktivitätslevel passt."]) else (4, [])
    else if v == "action" then
      if _has_any_tag it ["action"] then (18, ["Action-Vibe passt."]) else (4, [])
    else (0, [])

/-- Lines 242-247: mobility realism (soft). -/
def mobilityStep (modes : List String) (it_tr_min : Int) : Rat × List String :=
  if modes.isEmpty then (0, [])
  else if (modes.contains "walk" || modes.contains "public") && decide (it_tr_min ≥ 30) then
    (-8, ["Anfahrt könnte ohne Auto/ÖPNV-Plan aufwändiger sein."])
  else (4, [])

/-- `setting in ("indoor", "mixed", "any", None, "")` (line 254). -/
def settingAllowsRain (setting : Option String) : Bool :=
  setting == some "indoor" || setting == some "mixed" || setting == some "any" ||
    setting == none || setting == some ""

/-- Lines 250-255: tag bonuses. -/
def bonusStep (setting : Option String) (it : Item) : Rat :=
  (if _has_any_tag it ["photo"] then (5 : Rat) / 2 else 0) +
    (if _has_any_tag it ["free"] then 3 else 0) +
    (if _has_any_tag it ["rain-ok"] && settingAllowsRain setting then 2 else 0)

/-- `round(score, 2)` (line 259), as round-half-up on hundredths.  Every
reachable score is a multiple of 1/2, so `score * 100` is an integer and
the result is `score` itself whatever the tie-breaking; Python's
round-half-to-even differs only at ties, which never occur here. -/
def round2 (q : Rat) : Rat :=
  ((⌊q * 100 + 1 / 2⌋ : Int) : Rat) / 100


/-- One ranking result (line 257-263). -/
structure ScoredItem where
  score : Rat
  reasons : List String
  item : Item
deriving DecidableEq

/-- The body of the `for it in items:` loop (lines 148-263) for one item:
`Except.error` models an uncaught exception aborting the whole pass,
`.ok none` a `continue` (hard-filter drop), `.ok (some s)` a survivor. -/
def processItem (qp : QueryParams) (it : Item) : Except Unit (Option ScoredItem) :=
  match pyInt it.duration.min_minutes 0 with
  | .error e => .error e
  | .ok it_min =>
  match pyInt it.duration.max_minutes (24 * 60) with
  | .error e => .error e
  | .ok it_max =>
  match timeStep qp.time_min qp.time_max it_min it_max with
  | none => .ok none
  | some (s1, r1) =>
  match pyInt it.travel_from.min_minutes 0 with
  | .error e => .error e
  | .ok it_tr_min =>
  match pyInt it.travel_from.max_minutes it_tr_min with
  | .error e => .error e
  | .ok _it_tr_max =>
  match travelStep qp.max_travel it_tr_min with
  | none => .ok none
  | some (s2, r2) =>
  match settingStep qp.setting it with
  | none => .ok none
  | some (s3, r3) =>
  match budgetStep qp.budget_max it.cost with
  | none => .ok none
  | some (s4, r4) =>
  match kidsStep qp.kids_selected qp.kid_age_group it with
  | none => .ok none
  | some (s5, r5) =>
    let v := vibeStep qp.vibe it
    let m := mobilityStep qp.modes it_tr_min
    let b := bonusStep qp.setting it
    let score := s1 + s2 + s3 + s4 + s5 + v.1 + m.1 + b
    let reasons := r1 ++ r2 ++ r3 ++ r4 ++ r5 ++ v.2 ++ m.2
    .ok (some { score := round2 score, reasons := reasons.take 4, item := it })

/-- The whole catalog pass, in catalog order; an exception at any item
aborts everything (the source has no `try` around the loop body). -/
def pass (qp : QueryParams) : List Item → Except Unit (List ScoredItem)
  | [] => .ok []
  | it :: rest =>
    match processItem qp it with
    | .error e => .error e
    | .ok r =>
      match pass qp rest with
      | .error e => .error e
      | .ok rs =>
        match r with
        | some s => .ok (s :: rs)
        | none => .ok rs

/-- Stable insertion of `x` into a descending-by-score list: `x` goes
before the first element of not-larger score, hence before later-arriving
equal scores. -/
def insertDesc (x : ScoredItem) : List ScoredItem → List ScoredItem
  | [] => [x]
  | y :: ys => if y.score ≤ x.score then x :: y :: ys else y :: insertDesc x ys

/-- Stable descending sort by score: extensionally the unique stable
descending sort, hence the model of
`out.sort(key=lambda x: x["score"], reverse=True)` (line 265). -/
def sortDesc : List ScoredItem → List ScoredItem
  | [] => []
  | x :: xs => insertDesc x (sortDesc xs)

/-- `max(1, min(int(limit), 50))` (line 266), as the slice length. -/
def clampLimit (limit : Int) : Nat :=
  (max 1 (min limit 50)).toNat

/-- `_recommend` of `main.py` (lines 114-266), with the catalog passed
explicitly (the source reads it from the loaded index). -/
def _recommend (items : List Item) (answers : Answers) (limit : Int) :
    Except Unit (List ScoredItem) :=
  match pass (extractQuery answers) items with
  | .error e => .error e
  | .ok out => .ok ((sortDesc out).take (clampLimit limit))

/-- The all-defaults query payload. -/
def defaultAnswers : Answers := {}

/-- A plain item of duration 40-50 minutes (scenario of §8 of the spec). -/
def item4050 : Item :=
  { slug := "short-walk", duration := { min_minutes := .num 40, max_minutes := .num 50 } }

/-- An item whose duration lies entirely above the default 1440-minute
window. -/
def itemLong : Item :=
  { slug := "expedition", duration := { min_minutes := .num 2000, max_minutes := .num 2200 } }

/-- An item whose duration field holds a truthy non-numeric value. -/
def itemBadDuration : Item :=
  { slug := "broken", duration := { min_minutes := .bad } }

/-- A cost record whose `max_eur_pp` is a truthy non-numeric value
(the budget-coercion scenario of §8 of the spec). -/
def costBad : Cost := { max_eur_pp := .bad }

/-- An item carrying the tag `"kids-ok"` and nothing else. -/
def itemKids : Item := { slug := "kids-spot", tags := ["kids-ok"] }

/-- A query that selected kids explicitly. -/
def kidsAnswers : Answers := { kids_selected := .vBool true }

/-- A query asking for a 30-90 minute window. -/
def answers3090 : Answers :=
  { time_min_minutes := some 30, time_max_minutes := some 90 }

/-- `round2` fixes integers (the generic workhorse for evaluating the
engine on concrete catalogs). -/
theorem round2_intCast (n : ℤ) : round2 (n : ℚ) = n := by
  unfold round2
  rw [show ((n : ℚ) * 100 + 1 / 2) = ((n * 100 : ℤ) : ℚ) + 1 / 2 by push_cast; ring]
  rw [Int.floor_int_add]
  rw [show ⌊(1 / 2 : ℚ)⌋ = 0 by rw [Int.floor_eq_zero_iff]; constructor <;> norm_num]
  push_cast
  ring

/-- `round2` fixes numerals. -/
theorem round2_ofNat (n : ℕ) [n.AtLeastTwo] :
    round2 (no_index (OfNat.ofNat n)) = OfNat.ofNat n := by
  have h := round2_intCast (OfNat.ofNat n)
  simpa using h

/-- `round2` fixes zero. -/
theorem round2_zero : round2 0 = 0 := by
  have h := round2_intCast 0
  simpa using h

theorem mem_insertDesc {x a : ScoredItem} {l : List ScoredItem} :
    a ∈ insertDesc x l ↔ a = x ∨ a ∈ l := by
  induction l with
  | nil => simp [insertDesc]
  | cons y ys ih =>
    simp only [insertDesc]
    split
    · simp only [List.mem_cons]
    · simp only [List.mem_cons, ih]
      tauto

theorem pairwise_insertDesc {x : ScoredItem} {l : List ScoredItem}
    (h : l.Pairwise (fun p q => q.score ≤ p.score)) :
    (insertDesc x l).Pairwise (fun p q => q.score ≤ p.score) := by
  induction l with
  | nil => simp [insertDesc]
  | cons y ys ih =>
    rw [List.pairwise_cons] at h
    obtain ⟨hy, hys⟩ := h
    simp only [insertDesc]
    split
    · rename_i hle
      refine List.Pairwise.cons ?_ (List.Pairwise.cons hy hys)
      intro z hz
      rcases List.mem_cons.mp hz with rfl | hz2
      · exact hle
      · exact le_trans (hy z hz2) hle
    · rename_i hgt
      refine List.Pairwise.cons ?_ (ih hys)
      intro z hz
      rcases mem_insertDesc.mp hz with rfl | hz2
      · exact le_of_lt (lt_of_not_le hgt)
      · exact hy z hz2

theorem pairwise_sortDesc (l : List ScoredItem) :
    (sortDesc l).Pairwise (fun p q => q.score ≤ p.score) := by
  induction l with
  | nil => simp [sortDesc]
  | cons x xs ih =>
    simp only [sortDesc]
    exact pairwise_insertDesc ih

theorem filter_insertDesc (q : Rat) (x : ScoredItem) (l : List ScoredItem) :
    (insertDesc x l).filter (fun a => decide (a.score = q)) =
      if x.score = q then x :: l.filter (fun a => decide (a.score = q))
      else l.filter (fun a => decide (a.score = q)) := by
  induction l with
  | nil =>
    simp only [insertDesc, List.filter]
    by_cases hx : x.score = q <;> simp [hx]
  | cons y ys ih =>
    simp only [insertDesc]
    split
    · by_cases hx : x.score = q <;> simp [List.filter_cons, hx]
    · rename_i hgt
      by_cases hx : x.score = q
      · have hy : ¬ (y.score = q) := by
          intro hyq
          exact hgt (le_of_eq (hyq.trans hx.symm))
        simp [List.filter_cons, hx, hy, ih]
      · simp [List.filter_cons, hx, ih]

theorem filter_sortDesc (q : Rat) (l : List ScoredItem) :
    (sortDesc l).filter (fun a => decide (a.score = q)) =
      l.filter (fun a => decide (a.score = q)) := by
  induction l with
  | nil => simp [sortDesc]
  | cons x xs ih =>
    simp only [sortDesc]
    rw [filter_insertDesc]
    by_cases hx : x.score = q <;> simp [List.filter_cons, hx, ih]

/-- Inversion of a successful `processItem`: every rule fired as recorded
and the result is the rounded sum with the first four reasons in firing
order. -/
theorem processItem_inv {qp : QueryParams} {it : Item} {s : ScoredItem}
    (h : processItem qp it = .ok (some s)) :
    ∃ it_min it_max it_tr_min it_tr_max s1 r1 s2 r2 s3 r3 s4 r4 s5 r5,
      pyInt it.duration.min_minutes 0 = .ok it_min ∧
      pyInt it.duration.max_minutes (24 * 60) = .ok it_max ∧
      timeStep qp.time_min qp.time_max it_min it_max = some (s1, r1) ∧
      pyInt it.travel_from.min_minutes 0 = .ok it_tr_min ∧
      pyInt it.travel_from.max_minutes it_tr_min = .ok it_tr_max ∧
      travelStep qp.max_travel it_tr_min = some (s2, r2) ∧
      settingStep qp.setting it = some (s3, r3) ∧
      budgetStep qp.budget_max it.cost = some (s4, r4) ∧
      kidsStep qp.kids_selected qp.kid_age_group it = some (s5, r5) ∧
      s = { score := round2 (s1 + s2 + s3 + s4 + s5 + (vibeStep qp.vibe it).1 +
                      (mobilityStep qp.modes it_tr_min).1 + bonusStep qp.setting it),
            reasons := (r1 ++ r2 ++ r3 ++ r4 ++ r5 ++ (vibeStep qp.vibe it).2 ++
                      (mobilityStep qp.modes it_tr_min).2).take 4,
            item := it } := by
  unfold processItem at h
  repeat' split at h
  any_goals cases h
  rename_i x1 a1 h1 x2 a2 h2 x3 b1 c1 h3 x4 a3 h4 x5 a4 h5 x6 b2 c2 h6 x7 b3 c3 h7
    x8 b4 c4 h8 x9 b5 c5 h9
  exact ⟨a1, a2, a3, a4, b1, c1, b2, c2, b3, c3, b4, c4, b5, c5,
    h1, h2, h3, h4, h5, h6, h7, h8, h9, rfl⟩

/-- Every survivor of a catalog pass arises from `processItem` on some
catalog member. -/
theorem pass_mem {qp : QueryParams} {items : List Item} {pre : List ScoredItem}
    (h : pass qp items = .ok pre) {s : ScoredItem} (hs : s ∈ pre) :
    ∃ it, it ∈ items ∧ processItem qp it = .ok (some s) := by
  induction items generalizing pre with
  | nil =>
    simp only [pass, Except.ok.injEq] at h
    subst h
    cases hs
  | cons it rest ih =>
    simp only [pass] at h
    repeat' split at h
    any_goals cases h
    · rename_i r hp x s0 hr
      rcases List.mem_cons.mp hs with rfl | hs2
      · exact ⟨it, List.mem_cons_self it rest, hr⟩
      · obtain ⟨it2, hmem, hproc⟩ := ih hp hs2
        exact ⟨it2, List.mem_cons_of_mem it hmem, hproc⟩
    · rename_i x hpn hp
      obtain ⟨it2, hmem, hproc⟩ := ih hp hs
      exact ⟨it2, List.mem_cons_of_mem it hmem, hproc⟩

/-- A successful `processItem` keeps the item itself in the result. -/
theorem processItem_item {qp : QueryParams} {it : Item} {s : ScoredItem}
    (h : processItem qp it = .ok (some s)) : s.item = it := by
  obtain ⟨_, _, _, _, _, _, _, _, _, _, _, _, _, _, _, _, _, _, _, _, _, _, _, hs⟩ :=
    processItem_inv h
  rw [hs]

/-- The catalog pass preserves catalog order: the items of the survivors
form a sublist (ordered subsequence) of the catalog. -/
theorem pass_sublist {qp : QueryParams} {items : List Item} {pre : List ScoredItem}
    (h : pass qp items = .ok pre) : List.Sublist (pre.map ScoredItem.item) items := by
  induction items generalizing pre with
  | nil =>
    simp only [pass, Except.ok.injEq] at h
    subst h
    simp
  | cons it rest ih =>
    simp only [pass] at h
    repeat' split at h
    any_goals cases h
    · rename_i r hp x s0 hr
      simp only [List.map_cons]
      rw [processItem_item hr]
      exact List.Sublist.cons₂ it (ih hp)
    · rename_i x hpn hp
      exact List.Sublist.cons it (ih hp)

/-- Decomposition of a successful `_recommend` run into pass, sort and
truncation. -/
theorem _recommend_ok {items : List Item} {a : Answers} {limit : Int} {out : List ScoredItem}
    (h : _recommend items a limit = .ok out) :
    ∃ pre, pass (extractQuery a) items = .ok pre ∧
      out = (sortDesc pre).take (clampLimit limit) := by
  unfold _recommend at h
  split at h
  · cases h
  · rename_i pre hpre
    refine ⟨pre, hpre, ?_⟩
    injection h with h2
    exact h2.symm



theorem mem_sortDesc {a : ScoredItem} {l : List ScoredItem} : a ∈ sortDesc l ↔ a ∈ l := by
  induction l with
  | nil => simp [sortDesc]
  | cons x xs ih => simp only [sortDesc, mem_insertDesc, ih, List.mem_cons]

/-- A successful travel step always yields one of the two positive
contributions: the final defensive branch of `travelStep` is dead code. -/
theorem travelStep_cases {m t : Int} {p : Rat × List String}
    (h : travelStep m t = some p) :
    p = (12, ["Sehr nah dran."]) ∨ p = (8, []) := by
  unfold travelStep at h
  repeat' split at h
  any_goals cases h
  · left
    rfl
  · right
    rfl
  · rename_i h1 h2 h3
    exfalso
    simp only [decide_eq_true_eq] at h1 h3
    omega

theorem kidsStep_drop {ks : PyVal} {kag : Option String} {it : Item}
    (hk : kidsActive ks kag = true) (ht : _has_any_tag it ["kids-ok"] = false) :
    kidsStep ks kag it = none := by
  simp [kidsStep, hk, ht]

theorem kidsStep_pass {ks : PyVal} {kag : Option String} {it : Item}
    (hk : kidsActive ks kag = true) (ht : _has_any_tag it ["kids-ok"] = true) :
    kidsStep ks kag it = some (10, ["Familientauglich."]) := by
  simp [kidsStep, hk, ht]

/-- C1 counterexample: with both `time_min_minutes` and `time_max_minutes`
left at their defaults (extracted window 0-1440), the duration rule still
fires: it contributes +22 and the reason "Zeit passt sehr gut." to
`item4050`, and it drops `itemLong` outright. -/
theorem C1_counterexample :
    _recommend [item4050, itemLong] defaultAnswers 12 =
      .ok [{ score := 30, reasons := ["Zeit passt sehr gut."], item := item4050 }] ∧
    (extractQuery defaultAnswers).time_min = 0 ∧
    (extractQuery defaultAnswers).time_max = 1440 ∧
    timeStep 0 1440 40 50 = some (22, ["Zeit passt sehr gut."]) ∧
    timeStep 0 1440 2000 2200 = none := by
  refine ⟨?_, rfl, rfl, by decide, by decide⟩
  norm_num +decide [_recommend, pass, processItem, extractQuery, defaultAnswers, orDefault, timeStep,
    timeActive, _overlap, travelStep, settingStep, budgetStep, kidsStep, kidsActive, kagActive,
    vibeStep, mobilityStep, bonusStep, pyInt, pyIntCost, _has_any_tag, item4050, itemLong,
    itemBadDuration, itemKids, costBad, kidsAnswers, answers3090, sortDesc, insertDesc,
    clampLimit, round2_ofNat, round2_zero]

/-- C1 (amended): the guard `time_min or time_max` is truthy for every
query, because the extracted `time_max` is never 0 (absent or 0 defaults
to 1440); so the duration-overlap rule is applied unconditionally, also
when both time fields take their defaults. -/
theorem C1_theorem (a : Answers) :
    timeActive (extractQuery a).time_min (extractQuery a).time_max = true := by
  cases hm : a.time_max_minutes with
  | none => simp [extractQuery, timeActive, orDefault, hm]
  | some n =>
    by_cases hn : n = 0 <;> simp [extractQuery, timeActive, orDefault, hm, hn]

/-- C2 counterexample: a single item whose `duration.min_minutes` holds a
truthy non-numeric value makes the whole ranking pass raise; the healthy
`item4050` in the same catalog is lost too, so the bad record is not
coerced and does abort the pass. -/
theorem C2_counterexample :
    _recommend [item4050, itemBadDuration] defaultAnswers 12 = .error () := by
  norm_num +decide [_recommend, pass, processItem, extractQuery, defaultAnswers, orDefault, timeStep,
    timeActive, _overlap, travelStep, settingStep, budgetStep, kidsStep, kidsActive, kagActive,
    vibeStep, mobilityStep, bonusStep, pyInt, pyIntCost, _has_any_tag, item4050, itemLong,
    itemBadDuration, itemKids, costBad, kidsAnswers, answers3090, sortDesc, insertDesc,
    clampLimit, round2_ofNat, round2_zero]

/-- C2 (amended): a malformed cost field is coerced to 0 inside the
budget rule's `try/except` and the item stays in the running; but a
truthy non-numeric duration field raises and aborts the whole pass. -/
theorem C2_theorem :
    (∀ (b : Int) (c : Cost), c.max_eur_pp = NumField.bad →
      pyIntCost c.max_eur_pp = 0 ∧ budgetStep (some b) c ≠ none) ∧
    (∀ (qp : QueryParams) (it : Item), it.duration.min_minutes = NumField.bad →
      processItem qp it = .error ()) := by
  constructor
  · intro b c h
    refine ⟨by simp [h, pyIntCost], ?_⟩
    simp only [budgetStep, h, pyIntCost]
    norm_num
    split <;> simp
  · intro qp it h
    simp [processItem, pyInt, h]

/-- C2 witness: the budget-coercion half at budget 20 and a bad cost
record, and the abort half at the bad-duration item. -/
theorem C2_witness :
    pyIntCost costBad.max_eur_pp = 0 ∧ budgetStep (some 20) costBad ≠ none ∧
    processItem (extractQuery defaultAnswers) itemBadDuration = .error () :=
  ⟨(C2_theorem.1 20 costBad rfl).1, (C2_theorem.1 20 costBad rfl).2,
    C2_theorem.2 (extractQuery defaultAnswers) itemBadDuration rfl⟩

/-- C3: a successful `_recommend` output is sorted by score in
non-increasing order; the pre-sort pass list follows catalog order (its
items form a sublist of the catalog), and for every score value the
output's slice of that score is a prefix of the pass list's slice, i.e.
equal scores keep their catalog relative order (stable sort). -/
theorem C3_theorem (items : List Item) (a : Answers) (limit : Int) (out : List ScoredItem)
    (h : _recommend items a limit = .ok out) :
    out.Pairwise (fun x y => y.score ≤ x.score) ∧
    ∃ pre, pass (extractQuery a) items = .ok pre ∧
      List.Sublist (pre.map ScoredItem.item) items ∧
      ∀ q : Rat, ∃ t, pre.filter (fun x => decide (x.score = q)) =
        out.filter (fun x => decide (x.score = q)) ++ t := by
  obtain ⟨pre, hpre, hout⟩ := _recommend_ok h
  refine ⟨?_, pre, hpre, pass_sublist hpre, ?_⟩
  · rw [hout]
    exact List.Pairwise.sublist (List.take_sublist _ _) (pairwise_sortDesc pre)
  · intro q
    refine ⟨((sortDesc pre).drop (clampLimit limit)).filter (fun x => decide (x.score = q)), ?_⟩
    rw [← filter_sortDesc q pre]
    conv_lhs => rw [← List.take_append_drop (clampLimit limit) (sortDesc pre)]
    rw [List.filter_append, hout]

/-- C3 witness: the sortedness part evaluated on a concrete run. -/
theorem C3_witness :
    ([{ score := 30, reasons := ["Zeit passt sehr gut."], item := item4050 }] :
      List ScoredItem).Pairwise (fun x y => y.score ≤ x.score) :=
  (C3_theorem [item4050, itemLong] defaultAnswers 12 _
    (by norm_num +decide [_recommend, pass, processItem, extractQuery, defaultAnswers, orDefault, timeStep,
    timeActive, _overlap, travelStep, settingStep, budgetStep, kidsStep, kidsActive, kagActive,
    vibeStep, mobilityStep, bonusStep, pyInt, pyIntCost, _has_any_tag, item4050, itemLong,
    itemBadDuration, itemKids, costBad, kidsAnswers, answers3090, sortDesc, insertDesc,
    clampLimit, round2_ofNat, round2_zero])).1

/-- C4: the output of a successful `_recommend` never exceeds
`clamp(limit, 1, 50)` elements, for every integer limit including
non-positive and huge ones, and the limit never causes an error: for the
same catalog and query every other limit also succeeds. -/
theorem C4_theorem (items : List Item) (a : Answers) (limit : Int) (out : List ScoredItem)
    (h : _recommend items a limit = .ok out) :
    out.length ≤ (max 1 (min limit 50)).toNat ∧
    ∀ limit2 : Int, ∃ out2, _recommend items a limit2 = .ok out2 := by
  obtain ⟨pre, hpre, hout⟩ := _recommend_ok h
  constructor
  · rw [hout]
    simp only [List.length_take, clampLimit]
    exact min_le_left _ _
  · intro limit2
    refine ⟨(sortDesc pre).take (clampLimit limit2), ?_⟩
    unfold _recommend
    rw [hpre]

/-- C4 witness: limit 0 is clamped to 1 on a concrete run. -/
theorem C4_witness :
    ([{ score := 30, reasons := ["Zeit passt sehr gut."], item := item4050 }] :
      List ScoredItem).length ≤ (max 1 (min (0 : Int) 50)).toNat :=
  (C4_theorem [item4050] defaultAnswers 0 _
    (by norm_num +decide [_recommend, pass, processItem, extractQuery, defaultAnswers, orDefault, timeStep,
    timeActive, _overlap, travelStep, settingStep, budgetStep, kidsStep, kidsActive, kagActive,
    vibeStep, mobilityStep, bonusStep, pyInt, pyIntCost, _has_any_tag, item4050, itemLong,
    itemBadDuration, itemKids, costBad, kidsAnswers, answers3090, sortDesc, insertDesc,
    clampLimit, round2_ofNat, round2_zero])).1

/-- C5: whenever the duration rule applies, an item is dropped exactly
when its interval does not overlap the window; full containment gives
+22 with reason "Zeit passt sehr gut.", partial overlap +12 with reason
"Zeit passt grundsätzlich.". -/
theorem C5_theorem (tm tM im iM : Int) (h : timeActive tm tM = true) :
    (timeStep tm tM im iM = none ↔ _overlap im iM tm tM = false) ∧
    (_overlap im iM tm tM = true → tm ≤ im ∧ iM ≤ tM →
      timeStep tm tM im iM = some (22, ["Zeit passt sehr gut."])) ∧
    (_overlap im iM tm tM = true → ¬(tm ≤ im ∧ iM ≤ tM) →
      timeStep tm tM im iM = some (12, ["Zeit passt grundsätzlich."])) := by
  refine ⟨⟨fun hn => ?_, fun ho => ?_⟩, fun ho hc => ?_, fun ho hc => ?_⟩
  · cases ho : _overlap im iM tm tM
    · rfl
    · exfalso
      rw [timeStep, if_pos h, ho] at hn
      split at hn
      · simp_all
      · split at hn <;> cases hn
  · simp [timeStep, h, ho]
  · have hg : (decide (im ≥ tm) && decide (iM ≤ tM)) = true := by
      simp [ge_iff_le, hc.1, hc.2]
    simp [timeStep, h, ho, hg]
  · have hg : (decide (im ≥ tm) && decide (iM ≤ tM)) = false := by
      rcases not_and_or.mp hc with hc1 | hc2
      · have hdec : decide (im ≥ tm) = false := by simp [ge_iff_le, hc1]
        rw [hdec, Bool.false_and]
      · have hdec : decide (iM ≤ tM) = false := by simp [hc2]
        rw [hdec, Bool.and_false]
    simp [timeStep, h, ho, hg]

/-- C5 witness: the §8 scenario: duration 40-50 against window 30-90 is
fully contained, gets the +22 component, and `item4050` is in the output
with that reason. -/
theorem C5_witness :
    timeActive 30 90 = true ∧
    timeStep 30 90 40 50 = some (22, ["Zeit passt sehr gut."]) ∧
    _recommend [item4050] answers3090 12 =
      .ok [{ score := 30, reasons := ["Zeit passt sehr gut."], item := item4050 }] := by
  refine ⟨by decide, (C5_theorem 30 90 40 50 (by decide)).2.1 (by decide) (by decide), ?_⟩
  norm_num +decide [_recommend, pass, processItem, extractQuery, defaultAnswers, orDefault, timeStep,
    timeActive, _overlap, travelStep, settingStep, budgetStep, kidsStep, kidsActive, kagActive,
    vibeStep, mobilityStep, bonusStep, pyInt, pyIntCost, _has_any_tag, item4050, itemLong,
    itemBadDuration, itemKids, costBad, kidsAnswers, answers3090, sortDesc, insertDesc,
    clampLimit, round2_ofNat, round2_zero]

/-- C6: when the kids guard is active (`kids_selected is True` or a
non-"mixed" age group), an item without the tag "kids-ok" never appears
in any output whatever its other scores, and an item with the tag gets
+10 with reason "Familientauglich.". -/
theorem C6_theorem (a : Answers) (it : Item)
    (hk : kidsActive (extractQuery a).kids_selected (extractQuery a).kid_age_group = true) :
    (_has_any_tag it ["kids-ok"] = false →
      ∀ items limit out, _recommend items a limit = .ok out →
        ∀ s ∈ out, s.item ≠ it) ∧
    (_has_any_tag it ["kids-ok"] = true →
      kidsStep (extractQuery a).kids_selected (extractQuery a).kid_age_group it =
        some (10, ["Familientauglich."])) := by
  constructor
  · intro ht items limit out hrec s hs hitem
    obtain ⟨pre, hpre, hout⟩ := _recommend_ok hrec
    rw [hout] at hs
    have hs2 : s ∈ pre := mem_sortDesc.mp (List.take_subset _ _ hs)
    obtain ⟨it2, hmem, hproc⟩ := pass_mem hpre hs2
    have hit2 : it2 = it := by rw [← processItem_item hproc, hitem]
    subst hit2
    obtain ⟨_, _, _, _, _, _, _, _, _, _, _, _, _, _, _, _, _, _, _, _, _, _,
      hkids, _⟩ := processItem_inv hproc
    rw [kidsStep_drop hk ht] at hkids
    cases hkids
  · intro ht
    exact kidsStep_pass hk ht

/-- C6 witness: kids query, one tagged and one untagged item; the tagged
one survives and the output item is not the untagged one. -/
theorem C6_witness :
    kidsActive (extractQuery kidsAnswers).kids_selected
      (extractQuery kidsAnswers).kid_age_group = true ∧
    ({ score := 40, reasons := ["Zeit passt sehr gut.", "Familientauglich."],
        item := itemKids } : ScoredItem).item ≠ item4050 ∧
    kidsStep (extractQuery kidsAnswers).kids_selected
      (extractQuery kidsAnswers).kid_age_group itemKids =
        some (10, ["Familientauglich."]) :=
  ⟨by decide,
    (C6_theorem kidsAnswers item4050 (by decide)).1 (by decide) [itemKids, item4050] 12
      [{ score := 40, reasons := ["Zeit passt sehr gut.", "Familientauglich."],
          item := itemKids }]
      (by norm_num +decide [_recommend, pass, processItem, extractQuery, defaultAnswers, orDefault, timeStep,
    timeActive, _overlap, travelStep, settingStep, budgetStep, kidsStep, kidsActive, kagActive,
    vibeStep, mobilityStep, bonusStep, pyInt, pyIntCost, _has_any_tag, item4050, itemLong,
    itemBadDuration, itemKids, costBad, kidsAnswers, answers3090, sortDesc, insertDesc,
    clampLimit, round2_ofNat, round2_zero]) _ (by simp),
    (C6_theorem kidsAnswers itemKids (by decide)).2 (by decide)⟩

/-- C7: with a budget set, the budget rule drops an item exactly when its
coerced cost is strictly positive and strictly above the budget;
survivors get +10 "Kostenlos." for a free cost of 0, +4 for any other
cost of 0 (including malformed costs coerced to 0), and +6
"Budget passt." for a positive cost within the budget. -/
theorem C7_theorem (budget : Int) (c : Cost) :
    (budgetStep (some budget) c = none ↔
      (0 < pyIntCost c.max_eur_pp ∧ budget < pyIntCost c.max_eur_pp)) ∧
    (pyIntCost c.max_eur_pp = 0 ∧ c.ctype = some "free" →
      budgetStep (some budget) c = some (10, ["Kostenlos."])) ∧
    (pyIntCost c.max_eur_pp = 0 ∧ c.ctype ≠ some "free" →
      budgetStep (some budget) c = some (4, [])) ∧
    (0 < pyIntCost c.max_eur_pp ∧ pyIntCost c.max_eur_pp ≤ budget →
      budgetStep (some budget) c = some (6, ["Budget passt."])) := by
  by_cases h0 : pyIntCost c.max_eur_pp = 0
  · by_cases hf : c.ctype = some "free" <;>
      simp [budgetStep, h0, hf]
  · by_cases hd : 0 < pyIntCost c.max_eur_pp ∧ budget < pyIntCost c.max_eur_pp
    · have hg : (decide (pyIntCost c.max_eur_pp > 0) &&
          decide (pyIntCost c.max_eur_pp > budget)) = true := by
        simp [gt_iff_lt, hd.1, hd.2]
      simp only [budgetStep, hg]
      simp [h0]
      omega
    · have hg : (decide (pyIntCost c.max_eur_pp > 0) &&
          decide (pyIntCost c.max_eur_pp > budget)) = false := by
        rcases not_and_or.mp hd with hd1 | hd2
        · have hdec : decide (pyIntCost c.max_eur_pp > 0) = false := by
            simp [gt_iff_lt]
            omega
          rw [hdec, Bool.false_and]
        · have hdec : decide (pyIntCost c.max_eur_pp > budget) = false := by
            simp [gt_iff_lt]
            omega
          rw [hdec, Bool.and_false]
      simp only [budgetStep, hg]
      simp [h0]
      omega

/-- C7 witness: the §8 budget-coercion scenario: a malformed cost with
budget 20 is treated as cost 0 and scored +4. -/
theorem C7_witness :
    pyIntCost costBad.max_eur_pp = 0 ∧
    budgetStep (some 20) costBad = some (4, []) :=
  ⟨rfl, (C7_theorem 20 costBad).2.2.1 ⟨rfl, by decide⟩⟩

/-- C8: every item of a successful `_recommend` output carries at most 4
reasons, and comes from `processItem` on a catalog member (whose reason
list is by construction the 4-prefix of the reasons in rule order). -/
theorem C8_theorem (items : List Item) (a : Answers) (limit : Int) (out : List ScoredItem)
    (h : _recommend items a limit = .ok out) :
    ∀ s ∈ out, s.reasons.length ≤ 4 ∧
      ∃ it, it ∈ items ∧ processItem (extractQuery a) it = .ok (some s) := by
  intro s hs
  obtain ⟨pre, hpre, hout⟩ := _recommend_ok h
  rw [hout] at hs
  have hs2 : s ∈ pre := mem_sortDesc.mp (List.take_subset _ _ hs)
  obtain ⟨it, hmem, hproc⟩ := pass_mem hpre hs2
  refine ⟨?_, it, hmem, hproc⟩
  obtain ⟨_, _, _, _, _, _, _, _, _, _, _, _, _, _, _, _, _, _, _, _, _, _, _,
    hs_eq⟩ := processItem_inv hproc
  rw [hs_eq]
  exact List.length_take_le _ _

/-- C8 witness: the reason bound on a concrete run. -/
theorem C8_witness :
    ({ score := 30, reasons := ["Zeit passt sehr gut."], item := item4050 } :
        ScoredItem).reasons.length ≤ 4 ∧
      ∃ it, it ∈ [item4050] ∧ processItem (extractQuery defaultAnswers) it =
        .ok (some { score := 30, reasons := ["Zeit passt sehr gut."], item := item4050 }) :=
  C8_theorem [item4050] defaultAnswers 12
    [{ score := 30, reasons := ["Zeit passt sehr gut."], item := item4050 }]
    (by norm_num +decide [_recommend, pass, processItem, extractQuery, defaultAnswers, orDefault, timeStep,
    timeActive, _overlap, travelStep, settingStep, budgetStep, kidsStep, kidsActive, kagActive,
    vibeStep, mobilityStep, bonusStep, pyInt, pyIntCost, _has_any_tag, item4050, itemLong,
    itemBadDuration, itemKids, costBad, kidsAnswers, answers3090, sortDesc, insertDesc,
    clampLimit, round2_ofNat, round2_zero]) _ (by simp)

/-- C9: every surviving item got a positive travel contribution: the
travel hard filter guarantees the minimum travel time is within bound, so
one of the +12 / +8 branches fires on every query; the defensive fourth
branch of `travelStep` is unreachable. -/
theorem C9_theorem (a : Answers) (it : Item) (s : ScoredItem)
    (h : processItem (extractQuery a) it = .ok (some s)) :
    ∃ t p, pyInt it.travel_from.min_minutes 0 = .ok t ∧
      travelStep (extractQuery a).max_travel t = some p ∧ 0 < p.1 ∧
      (p = (12, ["Sehr nah dran."]) ∨ p = (8, [])) := by
  obtain ⟨_, _, t, _, _, _, s2, r2, _, _, _, _, _, _, _, _, _, htrmin, _,
    htravel, _, _, _, _⟩ := processItem_inv h
  refine ⟨t, (s2, r2), htrmin, htravel, ?_, travelStep_cases htravel⟩
  rcases travelStep_cases htravel with hp | hp <;> rw [hp] <;> norm_num

/-- C9 witness: concrete survivor of a default query. -/
theorem C9_witness :
    ∃ t p, pyInt item4050.travel_from.min_minutes 0 = .ok t ∧
      travelStep (extractQuery defaultAnswers).max_travel t = some p ∧ 0 < p.1 ∧
      (p = (12, ["Sehr nah dran."]) ∨ p = (8, [])) :=
  C9_theorem defaultAnswers item4050
    { score := 30, reasons := ["Zeit passt sehr gut."], item := item4050 }
    (by norm_num +decide [_recommend, pass, processItem, extractQuery, defaultAnswers, orDefault, timeStep,
    timeActive, _overlap, travelStep, settingStep, budgetStep, kidsStep, kidsActive, kagActive,
    vibeStep, mobilityStep, bonusStep, pyInt, pyIntCost, _has_any_tag, item4050, itemLong,
    itemBadDuration, itemKids, costBad, kidsAnswers, answers3090, sortDesc, insertDesc,
    clampLimit, round2_ofNat, round2_zero])

/-- C10: the kids guard tests `kids_selected is True` (identity with the
boolean True): truthy non-boolean values such as the string "true" or the
integer 1 do not activate it, while any non-"mixed" age group does for
every `kids_selected` value. -/
theorem C10_theorem :
    pyTruthy (PyVal.vStr "true") = true ∧ pyTruthy (PyVal.vInt 1) = true ∧
    kidsActive (PyVal.vStr "true") none = false ∧
    kidsActive (PyVal.vInt 1) none = false ∧
    kidsActive (PyVal.vBool true) none = true ∧
    (∀ v : PyVal, kidsActive v (some "0-5") = true) := by
  refine ⟨by decide, by decide, by decide, by decide, by decide, ?_⟩
  intro v
  simp +decide [kidsActive, kagActive]


end Xliver
